import Mathlib

/-!
# MissionMonitor — verification of the submission/voting store and export pipeline

Shallow embedding of the core of the MissionMonitor repository:

* `storage.ts` — the durable store over the `missions` and `submissions`
  collections (`registerMission`, `recordVote`, `removeVote`,
  `markMissionClosed`, `markMissionExported`, `getMissionsPastDeadline`, …).
* `sheets.ts` — `exportMissionToSheets`, the Google-Sheets export adapter.
* `deadline-checker.ts` — `checkDeadlines`, the periodic sweep.

Conventions of the embedding:

* Timestamps (`Date` values and their ISO-string serializations) are modelled
  as natural numbers; `new Date(m.deadline) < now` is numeric comparison of
  the underlying instants, which the `Nat` order models exactly.
* Each mutating store operation in the source performs
  load → mutate the first record found by id → save the whole collection;
  the mutation of the record object found by `Array.prototype.find` is
  modelled by `updateFirst`, which rewrites the first list element matching
  the predicate and leaves everything else unchanged.
* JavaScript exceptions of the export adapter are modelled by a `docOk`
  flag: when `false` the external spreadsheet call fails and the `catch`
  block of `exportMissionToSheets` returns `success := false`.
-/

set_option maxRecDepth 8000

namespace MissionMonitor

/-! ## Generic list helper: read-modify-write of the first matching record -/

/-- Rewrite the first element satisfying `p` using `f`; the rest of the list is
unchanged.  This is the effect of `const x = data.xs.find(p); if (x) mutate(x);`
followed by saving the whole collection. -/
def updateFirst (p : α → Bool) (f : α → α) : List α → List α
  | [] => []
  | x :: xs => if p x then f x :: xs else x :: updateFirst p f xs

/-! ## Data model (`storage.ts`) -/

/-- Mission lifecycle status: `'active' | 'closed' | 'exported'`. -/
inductive Status where
  | active
  | closed
  | exported
deriving DecidableEq, Repr

/-- A judge's score on a submission (`Vote` in `storage.ts`). -/
structure Vote where
  judgeId : String
  score : Nat
  timestamp : Nat
deriving DecidableEq, Repr

/-- A mission record (`Mission` in `storage.ts`). -/
structure Mission where
  id : String
  title : String
  threadId : String
  deadline : Nat
  status : Status
  createdAt : Nat
  exportedAt : Option Nat
  brief : Option String
  telegramMessageId : Option String
  telegramChatId : Option String
deriving DecidableEq, Repr

/-- Which chat platform produced a submission. -/
inductive Origin where
  | discord
  | telegram
deriving DecidableEq, Repr

/-- A submission record (`Submission` in `storage.ts`). -/
structure Submission where
  id : String
  messageId : String
  channelId : String
  threadId : String
  missionId : String
  userId : String
  userTag : String
  content : String
  urls : List String
  votes : List Vote
  submittedAt : Nat
  exported : Bool
  source : Origin
deriving DecidableEq, Repr

/-- Contents of `missions.json`. -/
structure MissionsData where
  missions : List Mission
deriving DecidableEq, Repr

/-- Contents of `submissions.json`. -/
structure SubmissionsData where
  submissions : List Submission
deriving DecidableEq, Repr

/-! ## Mission functions (`storage.ts`) -/

/-- `registerMission(threadId, title, deadline, brief)`: if a mission for the
thread already exists it is returned and the collection is left unchanged;
otherwise a fresh record with id `mission-${Date.now()}` and status `active`
is appended and saved.  `now` is the current clock value. -/
def registerMission (data : MissionsData) (threadId title : String)
    (deadline now : Nat) (brief : Option String) : Mission × MissionsData :=
  match data.missions.find? (fun m => m.threadId == threadId) with
  | some existing => (existing, data)
  | none =>
    let mission : Mission :=
      { id := "mission-" ++ toString now
        title := title
        threadId := threadId
        deadline := deadline
        status := Status.active
        createdAt := now
        exportedAt := none
        brief := brief
        telegramMessageId := none
        telegramChatId := none }
    (mission, { missions := data.missions ++ [mission] })

/-- `getMissionByThread`: first mission whose `threadId` matches, else `null`. -/
def getMissionByThread (data : MissionsData) (threadId : String) : Option Mission :=
  data.missions.find? (fun m => m.threadId == threadId)

/-- `getMissionById`: first mission whose `id` matches, else `null`. -/
def getMissionById (data : MissionsData) (missionId : String) : Option Mission :=
  data.missions.find? (fun m => m.id == missionId)

/-- `markMissionClosed`: if the mission is found its status is set to
`'closed'` and the collection is saved; otherwise nothing happens. -/
def markMissionClosed (data : MissionsData) (missionId : String) : MissionsData :=
  match data.missions.find? (fun m => m.id == missionId) with
  | none => data
  | some _ =>
    { missions := updateFirst (fun m => m.id == missionId)
        (fun m => { m with status := Status.closed }) data.missions }

/-- `markMissionExported`: if the mission is found its status is set to
`'exported'` and `exportedAt` is stamped; otherwise nothing happens. -/
def markMissionExported (data : MissionsData) (missionId : String) (now : Nat) :
    MissionsData :=
  match data.missions.find? (fun m => m.id == missionId) with
  | none => data
  | some _ =>
    { missions := updateFirst (fun m => m.id == missionId)
        (fun m => { m with status := Status.exported, exportedAt := some now })
        data.missions }

/-- `getMissionsPastDeadline`: missions with status `'active'` whose deadline
is strictly before `now` (`new Date(m.deadline) < now` in the source). -/
def getMissionsPastDeadline (data : MissionsData) (now : Nat) : List Mission :=
  data.missions.filter (fun m => m.status == Status.active && decide (m.deadline < now))

/-! ## Submission functions (`storage.ts`) -/

/-- `getSubmissionByMessage`: first submission whose `messageId` matches. -/
def getSubmissionByMessage (data : SubmissionsData) (messageId : String) :
    Option Submission :=
  data.submissions.find? (fun s => s.messageId == messageId)

/-- `getSubmissionsByMission`: all submissions belonging to a mission. -/
def getSubmissionsByMission (data : SubmissionsData) (missionId : String) :
    List Submission :=
  data.submissions.filter (fun s => s.missionId == missionId)

/-- The vote-collection update performed by `recordVote`: `findIndex` an
existing entry by judge id and overwrite it in place, else push a new entry.
Both branches store `{judgeId, score, timestamp: now}`. -/
def recordVoteVotes (votes : List Vote) (judgeId : String) (score now : Nat) :
    List Vote :=
  match votes with
  | [] => [{ judgeId := judgeId, score := score, timestamp := now }]
  | v :: vs =>
    if v.judgeId == judgeId then
      { judgeId := judgeId, score := score, timestamp := now } :: vs
    else
      v :: recordVoteVotes vs judgeId score now

/-- `recordVote(submissionId, judgeId, score)`: loads the submission by id; on
a miss it logs and returns without saving; otherwise it replaces the judge's
existing vote or appends a new one, then saves. -/
def recordVote (data : SubmissionsData) (submissionId judgeId : String)
    (score now : Nat) : SubmissionsData :=
  match data.submissions.find? (fun s => s.id == submissionId) with
  | none => data
  | some _ =>
    { submissions := updateFirst (fun s => s.id == submissionId)
        (fun s => { s with votes := recordVoteVotes s.votes judgeId score now })
        data.submissions }

/-- `removeVote(submissionId, judgeId)`: loads the submission by id; on a miss
it returns without saving; otherwise it filters the judge's entries out of the
vote collection and saves. -/
def removeVote (data : SubmissionsData) (submissionId judgeId : String) :
    SubmissionsData :=
  match data.submissions.find? (fun s => s.id == submissionId) with
  | none => data
  | some _ =>
    { submissions := updateFirst (fun s => s.id == submissionId)
        (fun s => { s with votes := s.votes.filter (fun v => v.judgeId != judgeId) })
        data.submissions }

/-- `markSubmissionsExported`: sets the `exported` flag on every submission of
the mission. -/
def markSubmissionsExported (data : SubmissionsData) (missionId : String) :
    SubmissionsData :=
  { submissions := data.submissions.map
      (fun s => if s.missionId == missionId then { s with exported := true } else s) }

/-! ## Export adapter (`sheets.ts`) -/

/-- One tab of the destination spreadsheet: a header row plus appended data
rows (`setHeaderRow` / `addRows` of the google-spreadsheet API). -/
structure Sheet where
  headerRow : List String
  rows : List (List String)
deriving DecidableEq, Repr

/-- The destination spreadsheet: tabs addressed by title (`doc.sheetsByTitle`). -/
structure SpreadsheetDoc where
  sheets : List (String × Sheet)
deriving DecidableEq, Repr

/-- `doc.sheetsByTitle[title]`. -/
def findSheet (doc : SpreadsheetDoc) (title : String) : Option Sheet :=
  (doc.sheets.find? (fun p => p.1 == title)).map Prod.snd

/-- `doc.addSheet({title})`: a fresh empty tab. -/
def addSheet (doc : SpreadsheetDoc) (title : String) : SpreadsheetDoc :=
  { sheets := doc.sheets ++ [(title, { headerRow := [], rows := [] })] }

/-- `sheet.clear()`: remove all cells of the tab, header included. -/
def clearSheet (doc : SpreadsheetDoc) (title : String) : SpreadsheetDoc :=
  { sheets := updateFirst (fun p => p.1 == title)
      (fun p => (p.1, { headerRow := [], rows := [] })) doc.sheets }

/-- `sheet.setHeaderRow(headers)`. -/
def setHeaderRow (doc : SpreadsheetDoc) (title : String) (headers : List String) :
    SpreadsheetDoc :=
  { sheets := updateFirst (fun p => p.1 == title)
      (fun p => (p.1, { headerRow := headers, rows := p.2.rows })) doc.sheets }

/-- `sheet.addRows(rows)`: append below the existing data rows. -/
def addRows (doc : SpreadsheetDoc) (title : String) (rows : List (List String)) :
    SpreadsheetDoc :=
  { sheets := updateFirst (fun p => p.1 == title)
      (fun p => (p.1, { headerRow := p.2.headerRow, rows := p.2.rows ++ rows }))
      doc.sheets }

/-- The create-or-clear step of the export: reuse a tab with the mission's
title after clearing it, otherwise add a fresh one. -/
def prepareSheet (doc : SpreadsheetDoc) (title : String) : SpreadsheetDoc :=
  match findSheet doc title with
  | none => addSheet doc title
  | some _ => clearSheet doc title

/-- Code-unit lexicographic comparison of character lists; models the default
JavaScript `Array.prototype.sort()` string comparison used on judge ids. -/
def lexLe : List Char → List Char → Bool
  | [], _ => true
  | _ :: _, [] => false
  | a :: as, b :: bs =>
    if a.val < b.val then true
    else if b.val < a.val then false
    else lexLe as bs

/-- String comparison used to sort the judge-id column order. -/
def strLe (a b : String) : Prop := lexLe a.data b.data = true

instance : DecidableRel strLe := fun a b => by unfold strLe; infer_instance

/-- The distinct judge ids observed across all of the mission's submissions,
sorted: `new Set` over every vote's `judgeId`, then `Array.from(...).sort()`. -/
def exportJudgeIds (submissions : List Submission) : List String :=
  ((submissions.flatMap (fun s => s.votes.map Vote.judgeId)).dedup).insertionSort strLe

/-- `title.slice(0, n)` / `content.slice(0, n)` on code units. -/
def sliceFirst (n : Nat) (s : String) : String :=
  String.mk (s.data.take n)

/-- `id.slice(-n)`: the last `n` code units (the whole string when shorter). -/
def sliceLast (n : Nat) (s : String) : String :=
  String.mk (s.data.drop (s.data.length - n))

/-- The characters the sheet-title sanitizer replaces: `* ? : / \ [ ]` and the
single quote. -/
def isSheetSpecialChar (c : Char) : Bool :=
  c == '*' || c == '?' || c == ':' || c == '/' || c == '\\' || c == '[' ||
    c == ']' || c == Char.ofNat 39

/-- `String.prototype.trim()`: strip whitespace from both ends. -/
def trimChars (cs : List Char) : List Char :=
  ((cs.dropWhile Char.isWhitespace).reverse.dropWhile Char.isWhitespace).reverse

/-- `sanitizeTitle`: replace special characters with `-`, truncate to 100
characters, trim. -/
def sanitizeTitle (title : String) : String :=
  String.mk (trimChars
    ((title.data.map (fun c => if isSheetSpecialChar c then '-' else c)).take 100))

/-- JavaScript `x.toFixed(2)` applied to the exact rational `sum / count`
(count ≠ 0): the integer number of cents nearest to the quotient, ties
rounding up, rendered as `⟨units⟩.⟨two digits⟩`. -/
def toFixed2 (sum count : Nat) : String :=
  let cents := (200 * sum + count) / (2 * count)
  toString (cents / 100) ++ "." ++
    (if cents % 100 < 10 then "0" else "") ++ toString (cents % 100)

/-- The `Average Score` cell: mean of the vote scores to two decimals, or the
`'N/A'` marker when the submission has no votes. -/
def avgScoreCell (votes : List Vote) : String :=
  if votes.length > 0 then toFixed2 ((votes.map Vote.score).sum) votes.length
  else "N/A"

/-- The per-judge columns of one row: the judge's score as a string, or a
blank cell when that judge cast no vote on this submission. -/
def judgeCells (judgeIdArray : List String) (votes : List Vote) : List String :=
  judgeIdArray.map (fun jid =>
    match votes.find? (fun v => v.judgeId == jid) with
    | some v => toString v.score
    | none => "")

/-- One destination row for a submission, in the source's column order:
id, user id, user tag, first URL, content (truncated to 500), submission
timestamp, vote count, average score, then one cell per judge column. -/
def buildRow (judgeIdArray : List String) (s : Submission) : List String :=
  [s.id, s.userId, s.userTag, s.urls.headD "", sliceFirst 500 s.content,
    toString s.submittedAt, toString s.votes.length, avgScoreCell s.votes]
    ++ judgeCells judgeIdArray s.votes

/-- The header row: eight fixed columns then one `Judge_⟨last 6 of id⟩`
column per distinct judge. -/
def exportHeaders (judgeIdArray : List String) : List String :=
  ["Submission ID", "User ID", "User Tag", "URL", "Content", "Submitted At",
    "Vote Count", "Average Score"]
    ++ judgeIdArray.map (fun jid => "Judge_" ++ sliceLast 6 jid)

/-- Result value of `exportMissionToSheets`. -/
structure ExportResult where
  success : Bool
  rowCount : Nat
  error : Option String
deriving DecidableEq, Repr

/-- The state the export adapter reads and writes: the two stored collections
plus the destination spreadsheet. -/
structure ExportState where
  missionsData : MissionsData
  submissionsData : SubmissionsData
  doc : SpreadsheetDoc
deriving DecidableEq, Repr

/-- `exportMissionToSheets(mission)`.  `docOk` models whether the external
spreadsheet service is reachable: when `false` the first external call
(`getSpreadsheet`) throws and the surrounding `catch` returns
`success: false` with the state untouched.  Otherwise: with zero submissions
the mission is marked exported at once and no tab is touched; with
submissions, the mission's tab is created or cleared, header and one row per
submission are written, and mission and submissions are marked exported. -/
def exportMissionToSheets (docOk : Bool) (mission : Mission) (st : ExportState)
    (now : Nat) : ExportResult × ExportState :=
  if docOk = false then
    ({ success := false, rowCount := 0, error := some "export error" }, st)
  else
    let submissions := getSubmissionsByMission st.submissionsData mission.id
    if submissions.length = 0 then
      ({ success := true, rowCount := 0, error := none },
        { st with missionsData := markMissionExported st.missionsData mission.id now })
    else
      let judgeIdArray := exportJudgeIds submissions
      let sheetTitle := sanitizeTitle mission.title
      let headers := exportHeaders judgeIdArray
      let rows := submissions.map (buildRow judgeIdArray)
      let doc2 := addRows (setHeaderRow (prepareSheet st.doc sheetTitle) sheetTitle headers)
        sheetTitle rows
      ({ success := true, rowCount := rows.length, error := none },
        { missionsData := markMissionExported st.missionsData mission.id now
          submissionsData := markSubmissionsExported st.submissionsData mission.id
          doc := doc2 })

/-! ## Deadline scanner (`deadline-checker.ts`) -/

/-- Modelled from the spec: the chat-platform collaborators invoked by the
sweep (`postMissionSummaryToThread`, `closeThread`, `updateStarterEmbed`,
`postMissionResultsToChannel`) and the configuration predicate
`isSheetsConfigured` are imported by `deadline-checker.ts` but their
implementations are not part of the analysed sources.  Per the spec they are
best-effort: a failure is caught and logged inside the collaborator and never
propagates, so each is modelled by a success flag that has no effect on the
stored collections.  `docOk` is the outcome of the export adapter's external
calls and `now` the sweep's clock value. -/
structure SweepEnv where
  summaryOk : Bool
  lockOk : Bool
  embedOk : Bool
  resultsOk : Bool
  sheetsConfigured : Bool
  docOk : Bool
  now : Nat
deriving DecidableEq, Repr

/-- The body of the sweep loop in `checkDeadlines` for one mission: steps 2-4
and 6 (summary, lock, starter-embed, results) are best-effort collaborator
calls with no effect on the store; step 5 unconditionally marks the mission
closed; step 7 runs the export adapter only when the sheets destination is
configured.  Returns the export result (when export ran) and the new state. -/
def processMission (env : SweepEnv) (st : ExportState) (mission : Mission) :
    Option ExportResult × ExportState :=
  let st1 : ExportState :=
    { st with missionsData := markMissionClosed st.missionsData mission.id }
  if env.sheetsConfigured then
    let r := exportMissionToSheets env.docOk mission st1 env.now
    (some r.1, r.2)
  else
    (none, st1)

/-- One sweep of `checkDeadlines`: select the active missions past deadline,
then process each fully before the next. -/
def checkDeadlines (env : SweepEnv) (st : ExportState) : ExportState :=
  (getMissionsPastDeadline st.missionsData env.now).foldl
    (fun acc m => (processMission env acc m).2) st

/-! ## Derived observers used in the statements -/

/-- The stored status of the mission with the given id, `none` when absent. -/
def statusOf (data : MissionsData) (missionId : String) : Option Status :=
  (getMissionById data missionId).map Mission.status

/-- Position of a status in the lifecycle order `active → closed → exported`. -/
def statusRank : Status → Nat
  | Status.active => 0
  | Status.closed => 1
  | Status.exported => 2

/-- A fold of `recordVote` calls for a fixed submission and judge: the
"sequence of `assertVote(s, j, score)` calls" of the spec, each call given as
a `(score, timestamp)` pair. -/
def applyVoteCalls (data : SubmissionsData) (submissionId judgeId : String)
    (calls : List (Nat × Nat)) : SubmissionsData :=
  calls.foldl (fun d c => recordVote d submissionId judgeId c.1 c.2) data

/-- Content specification for the destination tab written for `subs` with
judge columns `judges`: one row per submission; the `Average Score` cell
(column 7) is the two-decimal mean of the submission's vote scores, or the
`'N/A'` marker with zero votes; one column per distinct observed judge id,
holding the judge's score or a blank cell. -/
def RowsSpec (subs : List Submission) (judges : List String) (sheet : Sheet) :
    Prop :=
  sheet.rows.length = subs.length ∧
    sheet.headerRow.length = 8 + judges.length ∧
    judges.Nodup ∧
    (∀ jid, jid ∈ judges ↔ ∃ s ∈ subs, ∃ v ∈ s.votes, v.judgeId = jid) ∧
    ∀ i, i < subs.length →
      ∃ s, subs[i]? = some s ∧
        sheet.rows[i]? = some (buildRow judges s) ∧
        (buildRow judges s)[7]? =
          some (if s.votes.length = 0 then "N/A"
            else toFixed2 ((s.votes.map Vote.score).sum) s.votes.length) ∧
        ∀ k, k < judges.length →
          ∃ jid, judges[k]? = some jid ∧
            (buildRow judges s)[8 + k]? =
              some (match s.votes.find? (fun v => v.judgeId == jid) with
                | some v => toString v.score
                | none => "")

/-- Full specification of a non-empty export run: success, row count equal to
the submission count, and a destination tab whose contents satisfy
`RowsSpec`. -/
def ExportRowsSpec (mission : Mission) (st : ExportState) (now : Nat) : Prop :=
  (exportMissionToSheets true mission st now).1.success = true ∧
    (exportMissionToSheets true mission st now).1.rowCount =
      (getSubmissionsByMission st.submissionsData mission.id).length ∧
    ∃ sheet,
      findSheet (exportMissionToSheets true mission st now).2.doc
          (sanitizeTitle mission.title) = some sheet ∧
        RowsSpec (getSubmissionsByMission st.submissionsData mission.id)
          (exportJudgeIds (getSubmissionsByMission st.submissionsData mission.id))
          sheet

/-! ## Concrete fixtures used by the witnesses -/

/-- A concrete mission record with the given id, thread, deadline and status;
the remaining fields are fixed sample values. -/
def mkMission (mid tid : String) (dl : Nat) (st : Status) : Mission :=
  { id := mid
    title := "T"
    threadId := tid
    deadline := dl
    status := st
    createdAt := 0
    exportedAt := none
    brief := none
    telegramMessageId := none
    telegramChatId := none }

/-- A concrete submission record with the given id, message id, mission id and
votes; the remaining fields are fixed sample values. -/
def mkSubmission (sid msgid mid : String) (votes : List Vote) : Submission :=
  { id := sid
    messageId := msgid
    channelId := "ch"
    threadId := "th1"
    missionId := mid
    userId := "u1"
    userTag := "user"
    content := "a submission"
    urls := ["http"]
    votes := votes
    submittedAt := 0
    exported := false
    source := Origin.discord }

/-! ## Helper lemmas -/

theorem find?_updateFirst_key (key : α → String) (f : α → α) (i j : String)
    (l : List α) (hkey : ∀ a, key (f a) = key a) :
    (updateFirst (fun a => key a == i) f l).find? (fun a => key a == j) =
      if i = j then (l.find? (fun a => key a == j)).map f
      else l.find? (fun a => key a == j) := by
  induction l with
  | nil => simp [updateFirst]
  | cons x xs ih =>
    by_cases hxi : key x = i
    · rw [updateFirst, if_pos (by simp [hxi])]
      by_cases hij : i = j
      · subst hij
        rw [List.find?_cons_of_pos _ (by simp [hkey, hxi]),
          List.find?_cons_of_pos _ (by simp [hxi]), if_pos rfl, Option.map_some']
      · rw [List.find?_cons_of_neg _ (by simp [hkey, hxi, hij]),
          List.find?_cons_of_neg _ (by simp [hxi, hij]), if_neg hij]
    · rw [updateFirst, if_neg (by simp [hxi])]
      by_cases hxj : key x = j
      · have hij : ¬ i = j := fun h => hxi (h ▸ hxj)
        rw [List.find?_cons_of_pos _ (by simp [hxj]),
          List.find?_cons_of_pos _ (by simp [hxj]), if_neg hij]
      · rw [List.find?_cons_of_neg _ (by simp [hxj]),
          List.find?_cons_of_neg _ (by simp [hxj]), ih]

theorem updateFirst_eq_self_of_find? (p : α → Bool) (f : α → α) (l : List α)
    (a : α) (hfind : l.find? p = some a) (hfa : f a = a) :
    updateFirst p f l = l := by
  induction l with
  | nil => simp at hfind
  | cons x xs ih =>
    by_cases hx : p x = true
    · rw [List.find?_cons_of_pos _ hx, Option.some_inj] at hfind
      rw [updateFirst, if_pos hx, hfind, hfa]
    · rw [List.find?_cons_of_neg _ hx] at hfind
      rw [updateFirst, if_neg hx, ih hfind]

theorem getMissionById_markMissionClosed_self (d : MissionsData) (i : String)
    (m₀ : Mission) (h : getMissionById d i = some m₀) :
    getMissionById (markMissionClosed d i) i =
      some { m₀ with status := Status.closed } := by
  unfold getMissionById at h
  simp only [markMissionClosed, h, getMissionById]
  rw [find?_updateFirst_key Mission.id
      (fun m => { m with status := Status.closed }) i i d.missions (fun a => rfl),
    if_pos rfl, h, Option.map_some']

theorem getMissionById_markMissionClosed_ne (d : MissionsData) (i j : String)
    (hij : i ≠ j) :
    getMissionById (markMissionClosed d i) j = getMissionById d j := by
  simp only [markMissionClosed, getMissionById]
  cases hfind : d.missions.find? (fun m => m.id == i) with
  | none => rfl
  | some m =>
    rw [find?_updateFirst_key Mission.id
        (fun m => { m with status := Status.closed }) i j d.missions (fun a => rfl),
      if_neg hij]

theorem getMissionById_markMissionExported_self (d : MissionsData) (i : String)
    (now : Nat) (m₀ : Mission) (h : getMissionById d i = some m₀) :
    getMissionById (markMissionExported d i now) i =
      some { m₀ with status := Status.exported, exportedAt := some now } := by
  unfold getMissionById at h
  simp only [markMissionExported, h, getMissionById]
  rw [find?_updateFirst_key Mission.id
      (fun m => { m with status := Status.exported, exportedAt := some now })
      i i d.missions (fun a => rfl),
    if_pos rfl, h, Option.map_some']

theorem getMissionById_markMissionExported_ne (d : MissionsData) (i j : String)
    (now : Nat) (hij : i ≠ j) :
    getMissionById (markMissionExported d i now) j = getMissionById d j := by
  simp only [markMissionExported, getMissionById]
  cases hfind : d.missions.find? (fun m => m.id == i) with
  | none => rfl
  | some m =>
    rw [find?_updateFirst_key Mission.id
        (fun m => { m with status := Status.exported, exportedAt := some now })
        i j d.missions (fun a => rfl),
      if_neg hij]

theorem recordVoteVotes_filter (votes : List Vote) (j : String) (sc t : Nat)
    (h : votes.countP (fun v => v.judgeId == j) ≤ 1) :
    (recordVoteVotes votes j sc t).filter (fun v => v.judgeId == j) =
      [{ judgeId := j, score := sc, timestamp := t }] := by
  induction votes with
  | nil => simp [recordVoteVotes]
  | cons v vs ih =>
    by_cases hv : v.judgeId = j
    · rw [recordVoteVotes, if_pos (by simp [hv])]
      rw [List.countP_cons_of_pos _ _ (by simp [hv])] at h
      have hzero : vs.countP (fun v => v.judgeId == j) = 0 := by omega
      rw [List.filter_cons_of_pos (by simp), List.filter_eq_nil_iff.2]
      intro a ha
      have := List.countP_eq_zero.1 hzero a ha
      simpa using this
    · rw [recordVoteVotes, if_neg (by simp [hv])]
      rw [List.countP_cons_of_neg _ _ (by simp [hv])] at h
      rw [List.filter_cons_of_neg (by simp [hv]), ih h]

theorem find?_recordVote (st : SubmissionsData) (sid j : String) (sc t : Nat)
    (s₀ : Submission)
    (h : st.submissions.find? (fun s => s.id == sid) = some s₀) :
    (recordVote st sid j sc t).submissions.find? (fun s => s.id == sid) =
      some { s₀ with votes := recordVoteVotes s₀.votes j sc t } := by
  simp only [recordVote, h]
  rw [find?_updateFirst_key Submission.id
      (fun s => { s with votes := recordVoteVotes s.votes j sc t })
      sid sid st.submissions (fun a => rfl),
    if_pos rfl, h, Option.map_some']

theorem find?_removeVote (st : SubmissionsData) (sid j : String) (s₀ : Submission)
    (h : st.submissions.find? (fun s => s.id == sid) = some s₀) :
    (removeVote st sid j).submissions.find? (fun s => s.id == sid) =
      some { s₀ with votes := s₀.votes.filter (fun v => v.judgeId != j) } := by
  simp only [removeVote, h]
  rw [find?_updateFirst_key Submission.id
      (fun s => { s with votes := s.votes.filter (fun v => v.judgeId != j) })
      sid sid st.submissions (fun a => rfl),
    if_pos rfl, h, Option.map_some']

theorem getSubmissionsByMission_markSubmissionsExported (sd : SubmissionsData)
    (mid : String) :
    getSubmissionsByMission (markSubmissionsExported sd mid) mid =
      (getSubmissionsByMission sd mid).map (fun s => { s with exported := true }) := by
  unfold getSubmissionsByMission markSubmissionsExported
  show (sd.submissions.map _).filter _ = _
  rw [List.filter_map]
  have hpres : ∀ s : Submission,
      ((fun s : Submission => s.missionId == mid) ∘
        (fun s : Submission =>
          if s.missionId == mid then { s with exported := true } else s)) s =
        (s.missionId == mid) := by
    intro s
    by_cases hs : s.missionId = mid <;> simp [hs]
  rw [List.filter_congr (fun s _ => hpres s)]
  apply List.map_congr_left
  intro s hs
  have := List.mem_filter.1 hs
  simp only [this.2, if_pos]

theorem findSheet_prepareSheet (doc : SpreadsheetDoc) (title : String) :
    findSheet (prepareSheet doc title) title =
      some { headerRow := [], rows := [] } := by
  unfold prepareSheet
  cases hfind : findSheet doc title with
  | none =>
    unfold findSheet addSheet at *
    rw [List.find?_append]
    rw [Option.map_eq_none'] at hfind
    rw [hfind, Option.none_or, List.find?_cons_of_pos _ (by simp), Option.map_some']
  | some sh =>
    unfold findSheet clearSheet
    rw [find?_updateFirst_key Prod.fst
        (fun p => (p.1, { headerRow := [], rows := [] })) title title doc.sheets
        (fun a => rfl),
      if_pos rfl]
    unfold findSheet at hfind
    rw [Option.map_eq_some'] at hfind
    obtain ⟨p, hp, -⟩ := hfind
    rw [hp, Option.map_some', Option.map_some']

theorem findSheet_setHeaderRow_self (doc : SpreadsheetDoc) (title : String)
    (headers : List String) (sh₀ : Sheet)
    (h : findSheet doc title = some sh₀) :
    findSheet (setHeaderRow doc title headers) title =
      some { headerRow := headers, rows := sh₀.rows } := by
  unfold findSheet at h
  rw [Option.map_eq_some'] at h
  obtain ⟨p, hp, hsnd⟩ := h
  unfold setHeaderRow findSheet
  rw [find?_updateFirst_key Prod.fst
      (fun p => (p.1, { headerRow := headers, rows := p.2.rows })) title title
      doc.sheets (fun a => rfl),
    if_pos rfl, hp, Option.map_some', Option.map_some', hsnd]

theorem findSheet_addRows_self (doc : SpreadsheetDoc) (title : String)
    (rows : List (List String)) (sh₀ : Sheet)
    (h : findSheet doc title = some sh₀) :
    findSheet (addRows doc title rows) title =
      some { headerRow := sh₀.headerRow, rows := sh₀.rows ++ rows } := by
  unfold findSheet at h
  rw [Option.map_eq_some'] at h
  obtain ⟨p, hp, hsnd⟩ := h
  unfold addRows findSheet
  rw [find?_updateFirst_key Prod.fst
      (fun p => (p.1, { headerRow := p.2.headerRow, rows := p.2.rows ++ rows }))
      title title doc.sheets (fun a => rfl),
    if_pos rfl, hp, Option.map_some', Option.map_some', hsnd]

theorem avgScoreCell_eq (votes : List Vote) :
    avgScoreCell votes =
      if votes.length = 0 then "N/A"
      else toFixed2 ((votes.map Vote.score).sum) votes.length := by
  by_cases h : votes.length = 0
  · simp [avgScoreCell, h]
  · simp [avgScoreCell, h, Nat.pos_of_ne_zero h]

theorem buildRow_avg_cell (judges : List String) (s : Submission) :
    (buildRow judges s)[7]? =
      some (if s.votes.length = 0 then "N/A"
        else toFixed2 ((s.votes.map Vote.score).sum) s.votes.length) := by
  unfold buildRow
  rw [List.getElem?_append, ← avgScoreCell_eq]
  simp

theorem buildRow_judge_cell (judges : List String) (s : Submission) (k : Nat)
    (jid : String) (hk : judges[k]? = some jid) :
    (buildRow judges s)[8 + k]? =
      some (match s.votes.find? (fun v => v.judgeId == jid) with
        | some v => toString v.score
        | none => "") := by
  unfold buildRow
  rw [List.getElem?_append_right (by simp)]
  simp [judgeCells, List.getElem?_map, hk]

theorem exportJudgeIds_nodup (subs : List Submission) :
    (exportJudgeIds subs).Nodup := by
  unfold exportJudgeIds
  exact (List.perm_insertionSort strLe _).nodup_iff.2 (List.nodup_dedup _)

theorem mem_exportJudgeIds (subs : List Submission) (jid : String) :
    jid ∈ exportJudgeIds subs ↔ ∃ s ∈ subs, ∃ v ∈ s.votes, v.judgeId = jid := by
  unfold exportJudgeIds
  rw [(List.perm_insertionSort strLe _).mem_iff, List.mem_dedup, List.mem_flatMap]
  simp

theorem exportMissionToSheets_nonempty (mission : Mission) (st : ExportState)
    (now : Nat)
    (hlen : (getSubmissionsByMission st.submissionsData mission.id).length ≠ 0) :
    exportMissionToSheets true mission st now =
      ({ success := true
         rowCount := ((getSubmissionsByMission st.submissionsData mission.id).map
           (buildRow (exportJudgeIds
             (getSubmissionsByMission st.submissionsData mission.id)))).length
         error := none },
       { missionsData := markMissionExported st.missionsData mission.id now
         submissionsData := markSubmissionsExported st.submissionsData mission.id
         doc := addRows
           (setHeaderRow (prepareSheet st.doc (sanitizeTitle mission.title))
             (sanitizeTitle mission.title)
             (exportHeaders (exportJudgeIds
               (getSubmissionsByMission st.submissionsData mission.id))))
           (sanitizeTitle mission.title)
           ((getSubmissionsByMission st.submissionsData mission.id).map
             (buildRow (exportJudgeIds
               (getSubmissionsByMission st.submissionsData mission.id)))) }) := by
  simp [exportMissionToSheets, hlen]

theorem findSheet_export_write (doc : SpreadsheetDoc) (title : String)
    (headers : List String) (rows : List (List String)) :
    findSheet (addRows (setHeaderRow (prepareSheet doc title) title headers) title rows)
        title = some { headerRow := headers, rows := rows } := by
  have h1 := findSheet_prepareSheet doc title
  have h2 := findSheet_setHeaderRow_self _ title headers _ h1
  have h3 := findSheet_addRows_self _ title rows _ h2
  simpa using h3

/-! ## Claim C3 — deadline selection -/

/-- C3 counterexample: the claim says a mission whose deadline equals the scan
time is selected, but `getMissionsPastDeadline` compares with strict `<`:
a store holding one active mission with deadline 100 yields an empty
selection at scan time 100. -/
theorem getMissionsPastDeadline_boundary_cex :
    (mkMission "m1" "th1" 100 Status.active).status = Status.active ∧
      (mkMission "m1" "th1" 100 Status.active).deadline = 100 ∧
      mkMission "m1" "th1" 100 Status.active ∉
        getMissionsPastDeadline
          { missions := [mkMission "m1" "th1" 100 Status.active] } 100 ∧
      getMissionsPastDeadline
        { missions := [mkMission "m1" "th1" 100 Status.active] } 100 = [] := by
  decide

/-- C3 (amended): at scan time `now` the missions selected for deadline
processing are exactly those with status `active` and deadline strictly
before `now`; a mission whose deadline equals the scan time is not selected,
and no `closed` or `exported` mission ever is. -/
theorem getMissionsPastDeadline_selects (d : MissionsData) (now : Nat) (m : Mission) :
    m ∈ getMissionsPastDeadline d now ↔
      m ∈ d.missions ∧ m.status = Status.active ∧ m.deadline < now := by
  simp [getMissionsPastDeadline, List.mem_filter, and_assoc]

/-! ## Claim C4 — status monotonicity -/

/-- C4 counterexample: the store operations alone do not keep the lifecycle
status monotonic: `markMissionClosed` writes `closed` unconditionally, so
applying it to a mission already `exported` (register, then mark exported,
then mark closed) regresses the status from `exported` back to `closed`. -/
theorem markMissionClosed_regression_cex :
    statusOf
        (markMissionExported
          (registerMission { missions := [] } "th1" "Title" 100 0 none).2
          "mission-0" 50)
        "mission-0" = some Status.exported ∧
      statusOf
        (markMissionClosed
          (markMissionExported
            (registerMission { missions := [] } "th1" "Title" 100 0 none).2
            "mission-0" 50)
          "mission-0")
        "mission-0" = some Status.closed := by
  decide

/-- C4 (amended): `registerMission` and `markMissionExported` never move any
mission's status backwards in the order `active → closed → exported`, and
`markMissionClosed` does not either provided the target's status is not yet
`exported` (the scanner only closes missions it selected while `active`);
on an already-`exported` mission `markMissionClosed` regresses the status. -/
theorem status_monotonic_guarded (d : MissionsData) (i j tid title : String)
    (dl now : Nat) (brief : Option String) (s : Status)
    (hs : statusOf d j = some s) :
    (∃ s₂, statusOf (registerMission d tid title dl now brief).2 j = some s₂ ∧
        statusRank s ≤ statusRank s₂) ∧
      (∃ s₂, statusOf (markMissionExported d i now) j = some s₂ ∧
        statusRank s ≤ statusRank s₂) ∧
      (s ≠ Status.exported →
        ∃ s₂, statusOf (markMissionClosed d i) j = some s₂ ∧
          statusRank s ≤ statusRank s₂) := by
  obtain ⟨m, hm, hms⟩ := Option.map_eq_some'.1 hs
  unfold getMissionById at hm
  refine ⟨?_, ?_, ?_⟩
  · cases hfind : d.missions.find? (fun x => x.threadId == tid) with
    | some ex =>
      refine ⟨s, ?_, le_refl _⟩
      simpa [registerMission, hfind] using hs
    | none =>
      refine ⟨s, ?_, le_refl _⟩
      simp only [registerMission, hfind, statusOf, getMissionById]
      rw [List.find?_append, hm]
      simp [hms]
  · by_cases hij : i = j
    · subst hij
      have h := getMissionById_markMissionExported_self d i now m hm
      refine ⟨Status.exported, by simp [statusOf, h], ?_⟩
      cases s <;> simp [statusRank]
    · refine ⟨s, ?_, le_refl _⟩
      simp only [statusOf, getMissionById_markMissionExported_ne d i j now hij]
      unfold getMissionById
      rw [hm]
      simp [hms]
  · intro hne
    by_cases hij : i = j
    · subst hij
      have h := getMissionById_markMissionClosed_self d i m hm
      refine ⟨Status.closed, by simp [statusOf, h], ?_⟩
      cases s with
      | active => simp [statusRank]
      | closed => simp [statusRank]
      | exported => exact absurd rfl hne
    · refine ⟨s, ?_, le_refl _⟩
      simp only [statusOf, getMissionById_markMissionClosed_ne d i j hij]
      unfold getMissionById
      rw [hm]
      simp [hms]

/-- C4 witness: the guarded monotonicity theorem applied to a concrete store
holding one active mission. -/
theorem status_monotonic_guarded_witness :
    (∃ s₂, statusOf
        (registerMission { missions := [mkMission "m1" "th1" 9 Status.active] }
          "thX" "T2" 20 7 none).2 "m1" = some s₂ ∧
        statusRank Status.active ≤ statusRank s₂) ∧
      (∃ s₂, statusOf
          (markMissionExported { missions := [mkMission "m1" "th1" 9 Status.active] }
            "m1" 7) "m1" = some s₂ ∧
        statusRank Status.active ≤ statusRank s₂) ∧
      (∃ s₂, statusOf
          (markMissionClosed { missions := [mkMission "m1" "th1" 9 Status.active] }
            "m1") "m1" = some s₂ ∧
        statusRank Status.active ≤ statusRank s₂) := by
  have h := status_monotonic_guarded
    { missions := [mkMission "m1" "th1" 9 Status.active] }
    "m1" "m1" "thX" "T2" 20 7 none Status.active (by decide)
  exact ⟨h.1, h.2.1, h.2.2 (by decide)⟩

/-! ## Claim C5 — registration idempotence -/

/-- C5: registering the same thread twice returns the same mission record both
times and the second call leaves the stored collection exactly as the first
call left it (no second record is added). -/
theorem registerMission_idempotent (d : MissionsData) (tid t₁ : String)
    (dl₁ n₁ : Nat) (b₁ : Option String) (t₂ : String) (dl₂ n₂ : Nat)
    (b₂ : Option String) :
    (registerMission (registerMission d tid t₁ dl₁ n₁ b₁).2 tid t₂ dl₂ n₂ b₂).1 =
        (registerMission d tid t₁ dl₁ n₁ b₁).1 ∧
      (registerMission (registerMission d tid t₁ dl₁ n₁ b₁).2 tid t₂ dl₂ n₂ b₂).2 =
        (registerMission d tid t₁ dl₁ n₁ b₁).2 := by
  cases hfind : d.missions.find? (fun m => m.threadId == tid) with
  | some ex => simp [registerMission, hfind]
  | none => simp [registerMission, hfind, List.find?_append]

/-! ## Claim C9 — not-found behavior -/

/-- C9: when no stored record carries the referenced id, the lookups
`getMissionById`, `getMissionByThread` and `getSubmissionByMessage` return an
explicit empty result (they are total functions and cannot throw), and the
mutations `recordVote`, `removeVote`, `markMissionClosed` and
`markMissionExported` return the stored collections unchanged. -/
theorem notFound_noop (md : MissionsData) (sd : SubmissionsData)
    (mid tid msgid sid j : String) (sc t now : Nat)
    (hmid : ∀ m ∈ md.missions, m.id ≠ mid)
    (htid : ∀ m ∈ md.missions, m.threadId ≠ tid)
    (hmsg : ∀ s ∈ sd.submissions, s.messageId ≠ msgid)
    (hsid : ∀ s ∈ sd.submissions, s.id ≠ sid) :
    getMissionById md mid = none ∧
      getMissionByThread md tid = none ∧
      getSubmissionByMessage sd msgid = none ∧
      recordVote sd sid j sc t = sd ∧
      removeVote sd sid j = sd ∧
      markMissionClosed md mid = md ∧
      markMissionExported md mid now = md := by
  have h1 : md.missions.find? (fun m => m.id == mid) = none :=
    List.find?_eq_none.2 (fun m hm => by simp [hmid m hm])
  have h2 : md.missions.find? (fun m => m.threadId == tid) = none :=
    List.find?_eq_none.2 (fun m hm => by simp [htid m hm])
  have h3 : sd.submissions.find? (fun s => s.messageId == msgid) = none :=
    List.find?_eq_none.2 (fun s hs => by simp [hmsg s hs])
  have h4 : sd.submissions.find? (fun s => s.id == sid) = none :=
    List.find?_eq_none.2 (fun s hs => by simp [hsid s hs])
  exact ⟨h1, h2, h3, by simp [recordVote, h4], by simp [removeVote, h4],
    by simp [markMissionClosed, h1], by simp [markMissionExported, h1]⟩

/-- C9 witness: the not-found behavior evaluated on a concrete non-empty store
and an id (`"zz"`) that no record carries. -/
theorem notFound_noop_witness :
    getMissionById { missions := [mkMission "m1" "th1" 9 Status.active] } "zz" = none ∧
      getMissionByThread { missions := [mkMission "m1" "th1" 9 Status.active] } "zz" =
        none ∧
      getSubmissionByMessage
        { submissions := [mkSubmission "s1" "msg1" "m1" []] } "zz" = none ∧
      recordVote { submissions := [mkSubmission "s1" "msg1" "m1" []] } "zz" "A" 5 1 =
        { submissions := [mkSubmission "s1" "msg1" "m1" []] } ∧
      removeVote { submissions := [mkSubmission "s1" "msg1" "m1" []] } "zz" "A" =
        { submissions := [mkSubmission "s1" "msg1" "m1" []] } ∧
      markMissionClosed { missions := [mkMission "m1" "th1" 9 Status.active] } "zz" =
        { missions := [mkMission "m1" "th1" 9 Status.active] } ∧
      markMissionExported { missions := [mkMission "m1" "th1" 9 Status.active] }
          "zz" 3 =
        { missions := [mkMission "m1" "th1" 9 Status.active] } := by
  exact notFound_noop
    { missions := [mkMission "m1" "th1" 9 Status.active] }
    { submissions := [mkSubmission "s1" "msg1" "m1" []] }
    "zz" "zz" "zz" "zz" "A" 5 1 3
    (by decide) (by decide) (by decide) (by decide)

/-! ## Claim C10 — export of a mission with zero submissions -/

/-- C10: when the spreadsheet service is reachable and the mission has no
submissions, `exportMissionToSheets` returns success with row count 0, marks
the mission exported, and touches neither the submissions collection (no
exported-flag marking) nor the destination spreadsheet (no tab is created,
cleared or written). -/
theorem export_zero_submissions (mission : Mission) (st : ExportState) (now : Nat)
    (hsubs : getSubmissionsByMission st.submissionsData mission.id = []) :
    (exportMissionToSheets true mission st now).1 =
        { success := true, rowCount := 0, error := none } ∧
      (exportMissionToSheets true mission st now).2.missionsData =
        markMissionExported st.missionsData mission.id now ∧
      (exportMissionToSheets true mission st now).2.submissionsData =
        st.submissionsData ∧
      (exportMissionToSheets true mission st now).2.doc = st.doc ∧
      (∀ m₀, getMissionById st.missionsData mission.id = some m₀ →
        statusOf (exportMissionToSheets true mission st now).2.missionsData
            mission.id = some Status.exported) := by
  refine ⟨?_, ?_, ?_, ?_, ?_⟩
  · simp [exportMissionToSheets, hsubs]
  · simp [exportMissionToSheets, hsubs]
  · simp [exportMissionToSheets, hsubs]
  · simp [exportMissionToSheets, hsubs]
  · intro m₀ hm₀
    have h := getMissionById_markMissionExported_self st.missionsData mission.id now m₀ hm₀
    simp [exportMissionToSheets, hsubs, statusOf, h]

/-- C10 witness: zero-submission export evaluated on a concrete state. -/
theorem export_zero_submissions_witness :
    (exportMissionToSheets true (mkMission "m1" "th1" 9 Status.closed)
        { missionsData := { missions := [mkMission "m1" "th1" 9 Status.closed] }
          submissionsData := { submissions := [] }
          doc := { sheets := [] } } 77).1 =
        { success := true, rowCount := 0, error := none } ∧
      (exportMissionToSheets true (mkMission "m1" "th1" 9 Status.closed)
        { missionsData := { missions := [mkMission "m1" "th1" 9 Status.closed] }
          submissionsData := { submissions := [] }
          doc := { sheets := [] } } 77).2.missionsData =
        markMissionExported
          { missions := [mkMission "m1" "th1" 9 Status.closed] } "m1" 77 ∧
      (exportMissionToSheets true (mkMission "m1" "th1" 9 Status.closed)
        { missionsData := { missions := [mkMission "m1" "th1" 9 Status.closed] }
          submissionsData := { submissions := [] }
          doc := { sheets := [] } } 77).2.submissionsData = { submissions := [] } ∧
      (exportMissionToSheets true (mkMission "m1" "th1" 9 Status.closed)
        { missionsData := { missions := [mkMission "m1" "th1" 9 Status.closed] }
          submissionsData := { submissions := [] }
          doc := { sheets := [] } } 77).2.doc = { sheets := [] } := by
  have h := export_zero_submissions (mkMission "m1" "th1" 9 Status.closed)
    { missionsData := { missions := [mkMission "m1" "th1" 9 Status.closed] }
      submissionsData := { submissions := [] }
      doc := { sheets := [] } } 77 (by decide)
  exact ⟨h.1, h.2.1, h.2.2.1, h.2.2.2.1⟩

/-! ## Claim C1 — vote uniqueness -/

/-- C1: starting from a stored submission whose vote collection holds at most
one entry for judge `j` (the invariant the store maintains), after any
non-empty sequence of `recordVote` calls for that submission and judge the
stored vote collection contains exactly one entry for `j`, carrying the score
and timestamp of the last call of the sequence. -/
theorem assertVote_unique (st : SubmissionsData) (sid j : String)
    (calls : List (Nat × Nat)) (s₀ : Submission) (lastCall : Nat × Nat)
    (hfind : st.submissions.find? (fun s => s.id == sid) = some s₀)
    (hinv : s₀.votes.countP (fun v => v.judgeId == j) ≤ 1)
    (hlast : calls.getLast? = some lastCall) :
    ∃ s₂, (applyVoteCalls st sid j calls).submissions.find? (fun s => s.id == sid) =
        some s₂ ∧
      s₂.votes.filter (fun v => v.judgeId == j) =
        [{ judgeId := j, score := lastCall.1, timestamp := lastCall.2 }] := by
  induction calls generalizing st s₀ with
  | nil => simp at hlast
  | cons c cs ih =>
    have h₁ := find?_recordVote st sid j c.1 c.2 s₀ hfind
    cases cs with
    | nil =>
      have hc : lastCall = c := by simpa using hlast.symm
      refine ⟨_, by simpa [applyVoteCalls] using h₁, ?_⟩
      rw [hc]
      exact recordVoteVotes_filter s₀.votes j c.1 c.2 hinv
    | cons c₂ cs₂ =>
      have hcount :
          (recordVoteVotes s₀.votes j c.1 c.2).countP (fun v => v.judgeId == j) ≤ 1 := by
        rw [List.countP_eq_length_filter, recordVoteVotes_filter s₀.votes j c.1 c.2 hinv]
        simp
      have hlast₂ : (c₂ :: cs₂).getLast? = some lastCall := by
        simpa [List.getLast?_cons_cons] using hlast
      have hres := ih (recordVote st sid j c.1 c.2) _ h₁ hcount hlast₂
      simpa [applyVoteCalls] using hres

/-- C1 witness: judge `A` votes 3 then changes to 5 (the spec's concrete
scenario); the stored collection ends with exactly the vote `(A, 5)` stamped
by the second call. -/
theorem assertVote_unique_witness :
    ∃ s₂, (applyVoteCalls { submissions := [mkSubmission "s1" "msg1" "m1" []] }
        "s1" "A" [(3, 10), (5, 11)]).submissions.find? (fun s => s.id == "s1") =
        some s₂ ∧
      s₂.votes.filter (fun v => v.judgeId == "A") =
        [{ judgeId := "A", score := 5, timestamp := 11 }] := by
  exact assertVote_unique { submissions := [mkSubmission "s1" "msg1" "m1" []] }
    "s1" "A" [(3, 10), (5, 11)] (mkSubmission "s1" "msg1" "m1" []) (5, 11)
    (by decide) (by decide) (by decide)

/-! ## Claim C6 — retraction completeness -/

/-- C6: after `removeVote` for judge `j`, reading the submission back never
shows an entry for `j`, regardless of how many entries there were before; and
when the submission holds no entry for `j`, `removeVote` is a no-op that
returns the stored collection unchanged. -/
theorem retractVote_complete (st : SubmissionsData) (sid j : String) :
    (∀ s₂, (removeVote st sid j).submissions.find? (fun s => s.id == sid) = some s₂ →
        s₂.votes.filter (fun v => v.judgeId == j) = []) ∧
      (∀ s₀, st.submissions.find? (fun s => s.id == sid) = some s₀ →
        s₀.votes.filter (fun v => v.judgeId == j) = [] →
        removeVote st sid j = st) := by
  constructor
  · intro s₂ hs₂
    cases hfind : st.submissions.find? (fun s => s.id == sid) with
    | none =>
      rw [removeVote, hfind] at hs₂
      rw [hfind] at hs₂
      exact absurd hs₂ (by simp)
    | some s₀ =>
      have h := find?_removeVote st sid j s₀ hfind
      rw [h, Option.some_inj] at hs₂
      subst hs₂
      show (s₀.votes.filter _).filter _ = []
      rw [List.filter_filter, List.filter_eq_nil_iff]
      intro v hv
      by_cases hj : v.judgeId = j <;> simp [hj]
  · intro s₀ hfind hnone
    have hvotes : s₀.votes.filter (fun v => v.judgeId != j) = s₀.votes := by
      rw [List.filter_eq_self]
      intro v hv
      have := List.filter_eq_nil_iff.1 hnone v hv
      simpa [bne] using this
    have hfa :
        (fun s => { s with votes := s.votes.filter (fun v => v.judgeId != j) }) s₀ =
          s₀ := by
      cases s₀
      simp only [hvotes]
    rw [removeVote, hfind]
    rw [updateFirst_eq_self_of_find? _ _ _ s₀ hfind hfa]

/-- C6 witness: retracting judge `A`'s vote from a submission with votes by
`A` and `B` leaves a collection with no entry for `A`. -/
theorem retractVote_complete_witness :
    (mkSubmission "s1" "msg1" "m1" [⟨"B", 2, 2⟩]).votes.filter
        (fun v => v.judgeId == "A") = [] := by
  exact (retractVote_complete
      { submissions := [mkSubmission "s1" "msg1" "m1" [⟨"A", 4, 1⟩, ⟨"B", 2, 2⟩]] }
      "s1" "A").1
    (mkSubmission "s1" "msg1" "m1" [⟨"B", 2, 2⟩]) (by decide)

/-! ## Claim C2 — close-before-export ordering -/

/-- C2: for any mission processed by the sweep body, whatever the outcomes of
the best-effort collaborator steps and of the export, the stored status ends
at `closed` or `exported`; and it ends at `exported` only when the export
step ran and returned success. -/
theorem scanner_close_before_export (env : SweepEnv) (st : ExportState)
    (mission m₀ : Mission)
    (hfind : getMissionById st.missionsData mission.id = some m₀) :
    ∃ m₂, getMissionById (processMission env st mission).2.missionsData mission.id =
        some m₂ ∧
      (m₂.status = Status.closed ∨ m₂.status = Status.exported) ∧
      (m₂.status = Status.exported →
        ∃ res, (processMission env st mission).1 = some res ∧ res.success = true) := by
  have hclosed :=
    getMissionById_markMissionClosed_self st.missionsData mission.id m₀ hfind
  cases hconf : env.sheetsConfigured with
  | false =>
    refine ⟨{ m₀ with status := Status.closed }, ?_, Or.inl rfl, ?_⟩
    · simpa [processMission, hconf] using hclosed
    · intro habs
      simp at habs
  | true =>
    cases hdoc : env.docOk with
    | false =>
      refine ⟨{ m₀ with status := Status.closed }, ?_, Or.inl rfl, ?_⟩
      · simpa [processMission, hconf, hdoc, exportMissionToSheets] using hclosed
      · intro habs
        simp at habs
    | true =>
      have hexp := getMissionById_markMissionExported_self
        (markMissionClosed st.missionsData mission.id) mission.id env.now _ hclosed
      by_cases hlen :
          (getSubmissionsByMission st.submissionsData mission.id).length = 0
      · refine ⟨{ m₀ with status := Status.exported, exportedAt := some env.now },
          ?_, Or.inr rfl, fun _ => ⟨(exportMissionToSheets true mission
            { st with missionsData := markMissionClosed st.missionsData mission.id }
            env.now).1, ?_, ?_⟩⟩
        · simpa [processMission, hconf, hdoc, exportMissionToSheets, hlen] using hexp
        · simp [processMission, hconf, hdoc]
        · simp [exportMissionToSheets, hlen]
      · refine ⟨{ m₀ with status := Status.exported, exportedAt := some env.now },
          ?_, Or.inr rfl, fun _ => ⟨(exportMissionToSheets true mission
            { st with missionsData := markMissionClosed st.missionsData mission.id }
            env.now).1, ?_, ?_⟩⟩
        · simpa [processMission, hconf, hdoc, exportMissionToSheets, hlen] using hexp
        · simp [processMission, hconf, hdoc]
        · simp [exportMissionToSheets, hlen]

/-- C2 witness: the sweep body run on a concrete state holding the processed
mission, with every collaborator succeeding and export configured. -/
theorem scanner_close_before_export_witness :
    ∃ m₂, getMissionById
        (processMission
          { summaryOk := true, lockOk := true, embedOk := true, resultsOk := true,
            sheetsConfigured := true, docOk := true, now := 500 }
          { missionsData := { missions := [mkMission "m1" "th1" 9 Status.active] }
            submissionsData := { submissions := [] }
            doc := { sheets := [] } }
          (mkMission "m1" "th1" 9 Status.active)).2.missionsData "m1" = some m₂ ∧
      (m₂.status = Status.closed ∨ m₂.status = Status.exported) ∧
      (m₂.status = Status.exported →
        ∃ res, (processMission
          { summaryOk := true, lockOk := true, embedOk := true, resultsOk := true,
            sheetsConfigured := true, docOk := true, now := 500 }
          { missionsData := { missions := [mkMission "m1" "th1" 9 Status.active] }
            submissionsData := { submissions := [] }
            doc := { sheets := [] } }
          (mkMission "m1" "th1" 9 Status.active)).1 = some res ∧
          res.success = true) := by
  exact scanner_close_before_export
    { summaryOk := true, lockOk := true, embedOk := true, resultsOk := true,
      sheetsConfigured := true, docOk := true, now := 500 }
    { missionsData := { missions := [mkMission "m1" "th1" 9 Status.active] }
      submissionsData := { submissions := [] }
      doc := { sheets := [] } }
    (mkMission "m1" "th1" 9 Status.active)
    (mkMission "m1" "th1" 9 Status.active) (by decide)

/-! ## Claim C7 — export row contents -/

/-- C7: for a mission with at least one submission (and the spreadsheet
service reachable), the export succeeds and writes one destination row per
submission; each row's average-score cell is the two-decimal mean of the
submission's vote scores (`'N/A'` with zero votes); the tab has one judge
column per distinct judge id observed across all of the mission's
submissions, and a row's judge cell is blank exactly when that judge cast no
vote on that submission. -/
theorem export_rows_correct (mission : Mission) (st : ExportState) (now : Nat)
    (hsubs : getSubmissionsByMission st.submissionsData mission.id ≠ []) :
    ExportRowsSpec mission st now := by
  have hlen : (getSubmissionsByMission st.submissionsData mission.id).length ≠ 0 := by
    simpa [List.length_eq_zero] using hsubs
  have hrun := exportMissionToSheets_nonempty mission st now hlen
  unfold ExportRowsSpec
  rw [hrun]
  refine ⟨rfl, by simp, ?_⟩
  refine ⟨_, findSheet_export_write st.doc (sanitizeTitle mission.title) _ _, ?_⟩
  unfold RowsSpec
  refine ⟨by simp, by simp [exportHeaders]; omega, exportJudgeIds_nodup _,
    mem_exportJudgeIds _, ?_⟩
  intro i hi
  refine ⟨(getSubmissionsByMission st.submissionsData mission.id)[i],
    List.getElem?_eq_getElem hi, ?_, buildRow_avg_cell _ _, ?_⟩
  · simp [List.getElem?_map, List.getElem?_eq_getElem hi]
  · intro k hk
    exact ⟨_, List.getElem?_eq_getElem hk,
      buildRow_judge_cell _ _ k _ (List.getElem?_eq_getElem hk)⟩

/-- C7 witness: the spec's concrete scenario — `S1` with votes `A=4`, `B=2`
and `S2` with vote `A=5` — run through the export. -/
theorem export_rows_correct_witness :
    getSubmissionsByMission
        ({ submissions := [mkSubmission "s1" "msg1" "m1" [⟨"A", 4, 1⟩, ⟨"B", 2, 2⟩],
            mkSubmission "s2" "msg2" "m1" [⟨"A", 5, 3⟩]] } : SubmissionsData)
        "m1" ≠ [] ∧
      ExportRowsSpec (mkMission "m1" "th1" 9 Status.active)
        { missionsData := { missions := [mkMission "m1" "th1" 9 Status.active] }
          submissionsData :=
            { submissions := [mkSubmission "s1" "msg1" "m1" [⟨"A", 4, 1⟩, ⟨"B", 2, 2⟩],
                mkSubmission "s2" "msg2" "m1" [⟨"A", 5, 3⟩]] }
          doc := { sheets := [] } } 99 := by
  refine ⟨by decide, ?_⟩
  exact export_rows_correct (mkMission "m1" "th1" 9 Status.active)
    { missionsData := { missions := [mkMission "m1" "th1" 9 Status.active] }
      submissionsData :=
        { submissions := [mkSubmission "s1" "msg1" "m1" [⟨"A", 4, 1⟩, ⟨"B", 2, 2⟩],
            mkSubmission "s2" "msg2" "m1" [⟨"A", 5, 3⟩]] }
      doc := { sheets := [] } } 99 (by decide)

/-! ## Claim C8 — export idempotence -/

/-- C8: exporting the same mission twice (spreadsheet service reachable,
at least one submission) reports a row count equal to the mission's
submission count on both runs, and after each run the mission's destination
tab holds exactly that many data rows — the second run clears the tab before
rewriting instead of appending. -/
theorem export_idempotent (mission : Mission) (st : ExportState) (n₁ n₂ : Nat)
    (hsubs : getSubmissionsByMission st.submissionsData mission.id ≠ []) :
    (exportMissionToSheets true mission st n₁).1.rowCount =
        (getSubmissionsByMission st.submissionsData mission.id).length ∧
      (exportMissionToSheets true mission (exportMissionToSheets true mission st n₁).2
          n₂).1.rowCount =
        (getSubmissionsByMission st.submissionsData mission.id).length ∧
      (∃ sh₁, findSheet (exportMissionToSheets true mission st n₁).2.doc
            (sanitizeTitle mission.title) = some sh₁ ∧
          sh₁.rows.length =
            (getSubmissionsByMission st.submissionsData mission.id).length) ∧
      (∃ sh₂, findSheet (exportMissionToSheets true mission
              (exportMissionToSheets true mission st n₁).2 n₂).2.doc
            (sanitizeTitle mission.title) = some sh₂ ∧
          sh₂.rows.length =
            (getSubmissionsByMission st.submissionsData mission.id).length) ∧
      (getSubmissionsByMission
          (exportMissionToSheets true mission
            (exportMissionToSheets true mission st n₁).2 n₂).2.submissionsData
          mission.id).length =
        (getSubmissionsByMission st.submissionsData mission.id).length := by
  have hlen : (getSubmissionsByMission st.submissionsData mission.id).length ≠ 0 := by
    simpa [List.length_eq_zero] using hsubs
  have hrun₁ := exportMissionToSheets_nonempty mission st n₁ hlen
  have hsubs₁ : getSubmissionsByMission
      (exportMissionToSheets true mission st n₁).2.submissionsData mission.id =
      (getSubmissionsByMission st.submissionsData mission.id).map
        (fun s => { s with exported := true }) := by
    rw [hrun₁]
    exact getSubmissionsByMission_markSubmissionsExported st.submissionsData mission.id
  have hlen₁ : (getSubmissionsByMission
      (exportMissionToSheets true mission st n₁).2.submissionsData mission.id).length ≠
      0 := by
    rw [hsubs₁]
    simpa using hlen
  have hrun₂ := exportMissionToSheets_nonempty mission
    (exportMissionToSheets true mission st n₁).2 n₂ hlen₁
  refine ⟨?_, ?_, ?_, ?_, ?_⟩
  · rw [hrun₁]
    simp
  · rw [hrun₂]
    simp [hsubs₁]
  · rw [hrun₁]
    exact ⟨_, findSheet_export_write _ _ _ _, by simp⟩
  · rw [hrun₂]
    refine ⟨_, findSheet_export_write _ _ _ _, ?_⟩
    simp [hsubs₁]
  · rw [hrun₂]
    show (getSubmissionsByMission (markSubmissionsExported _ mission.id) mission.id).length = _
    rw [getSubmissionsByMission_markSubmissionsExported]
    simp [hsubs₁]

/-- C8 witness: a two-submission mission exported twice from a fresh
spreadsheet; both runs report two rows and leave a two-row tab. -/
theorem export_idempotent_witness :
    getSubmissionsByMission
        ({ submissions := [mkSubmission "s1" "msg1" "m1" [⟨"A", 4, 1⟩],
            mkSubmission "s2" "msg2" "m1" []] } : SubmissionsData) "m1" ≠ [] ∧
      (exportMissionToSheets true (mkMission "m1" "th1" 9 Status.active)
          { missionsData := { missions := [mkMission "m1" "th1" 9 Status.active] }
            submissionsData :=
              { submissions := [mkSubmission "s1" "msg1" "m1" [⟨"A", 4, 1⟩],
                  mkSubmission "s2" "msg2" "m1" []] }
            doc := { sheets := [] } } 41).1.rowCount = 2 ∧
      (exportMissionToSheets true (mkMission "m1" "th1" 9 Status.active)
          (exportMissionToSheets true (mkMission "m1" "th1" 9 Status.active)
            { missionsData := { missions := [mkMission "m1" "th1" 9 Status.active] }
              submissionsData :=
                { submissions := [mkSubmission "s1" "msg1" "m1" [⟨"A", 4, 1⟩],
                    mkSubmission "s2" "msg2" "m1" []] }
              doc := { sheets := [] } } 41).2 42).1.rowCount = 2 := by
  have h := export_idempotent (mkMission "m1" "th1" 9 Status.active)
    { missionsData := { missions := [mkMission "m1" "th1" 9 Status.active] }
      submissionsData :=
        { submissions := [mkSubmission "s1" "msg1" "m1" [⟨"A", 4, 1⟩],
            mkSubmission "s2" "msg2" "m1" []] }
      doc := { sheets := [] } } 41 42 (by decide)
  exact ⟨by decide, h.1, h.2.1⟩

end MissionMonitor
